import Mathlib

/-!
Verification of the Android icon resizer (src/devscripts/icon_resizer.py).

The Python source is shallowly embedded below.  Python machine integers are
modelled as `ℕ` (all quantities involved are non-negative), Python float
arithmetic inside `get_width_height` and the relative-size computation is
idealised as exact rational arithmetic over `ℚ`, and `int(...)` applied to a
non-negative value is `Int.toNat ∘ Int.floor` (truncation toward zero).
Filesystem effects (`os.makedirs` and the written image files) are modelled
by explicit state passing: a directory set plus a failure oracle for
`OSError`s other than "already exists", and a list of written files with
their pixel dimensions.  `Image.open` is modelled as an `Option` input:
`none` means the source image is missing or cannot be decoded.
-/

namespace IconResizer

/-- Embeds `RESOLUTION_TYPES = ('ldpi', ..., 'xxxhdpi')` (the iteration order
of the per-bucket loop). -/
def RESOLUTION_TYPES : List String :=
  ["ldpi", "mdpi", "hdpi", "xhdpi", "xxhdpi", "xxxhdpi"]

/-- Embeds the `RESOLUTION_SIZES` dict: canonical absolute pixel size of each
density bucket (0 for keys outside the dict). -/
def RESOLUTION_SIZES (resolution_type : String) : ℕ :=
  if resolution_type = "ldpi" then 36
  else if resolution_type = "mdpi" then 48
  else if resolution_type = "hdpi" then 72
  else if resolution_type = "xhdpi" then 96
  else if resolution_type = "xxhdpi" then 144
  else if resolution_type = "xxxhdpi" then 192
  else 0

/-- Embeds the `RELATIVE_SIZES` dict: scale factor of each density bucket
relative to mdpi; the float literals .75, 1.0, 1.5, 2.0, 3.0, 4.0 are the
exact rationals below (0 for keys outside the dict). -/
def RELATIVE_SIZES (resolution_type : String) : ℚ :=
  if resolution_type = "ldpi" then 3 / 4
  else if resolution_type = "mdpi" then 1
  else if resolution_type = "hdpi" then 3 / 2
  else if resolution_type = "xhdpi" then 2
  else if resolution_type = "xxhdpi" then 3
  else if resolution_type = "xxxhdpi" then 4
  else 0

/-- Embeds `PLAYSTORE_SIZE = 512`. -/
def PLAYSTORE_SIZE : ℕ := 512

/-- Embeds `DRAWABLE_FOLDER_PATH % resolution_type`, i.e.
`'res/drawable-%s' % resolution_type`. -/
def DRAWABLE_FOLDER_PATH (resolution_type : String) : String :=
  "res/drawable-" ++ resolution_type

/-- Embeds `PLAYSTORE_FOLDER_PATH = 'res/playstore'`. -/
def PLAYSTORE_FOLDER_PATH : String := "res/playstore"

/-! ### Filename normalisation

`normalize_file_name` is `re.sub("@[0-9]+x", "", file_name).replace('-', '_')`.
`re.sub` replaces every leftmost non-overlapping occurrence of the pattern in
one left-to-right pass.  Since `x` is not a digit, the regex `@[0-9]+x`
matches at a position exactly when an `@` is followed by a maximal non-empty
run of ASCII digits whose next character is `x` (backtracking inside `[0-9]+`
can never succeed otherwise). -/

/-- ASCII digit test, as the regex character class `[0-9]`. -/
def isAsciiDigit (c : Char) : Bool :=
  decide ('0' ≤ c) && decide (c ≤ '9')

/-- After at least one digit has been consumed: consume further digits of
`[0-9]+`, then require the literal `x`; returns the remainder after the
match, or `none`. -/
def chompX : List Char → Option (List Char)
  | [] => none
  | c :: rest =>
    if isAsciiDigit c then chompX rest
    else if c = 'x' then some rest
    else none

/-- Matches `[0-9]+x` at the head of the list (the part of the pattern after
`@`); returns the remainder after the match, or `none`. -/
def chompDigitsX : List Char → Option (List Char)
  | [] => none
  | c :: rest => if isAsciiDigit c then chompX rest else none

/-- One left-to-right pass of `re.sub("@[0-9]+x", "", ·)`, with explicit fuel
so that the recursion is structural (each step consumes at least one
character, so `fuel = l.length` is always enough). -/
def stripDensityFuel : ℕ → List Char → List Char
  | 0, l => l
  | _ + 1, [] => []
  | fuel + 1, c :: rest =>
    if c = '@' then
      match chompDigitsX rest with
      | some tail => stripDensityFuel fuel tail
      | none => c :: stripDensityFuel fuel rest
    else c :: stripDensityFuel fuel rest

/-- Embeds `re.sub("@[0-9]+x", "", l)`. -/
def stripDensity (l : List Char) : List Char :=
  stripDensityFuel l.length l

/-- Embeds `.replace('-', '_')`. -/
def replaceHyphens (l : List Char) : List Char :=
  l.map fun c => if c = '-' then '_' else c

/-- Embeds `normalize_file_name`:
`re.sub("@[0-9]+x", "", file_name).replace('-', '_')`. -/
def normalize_file_name (file_name : String) : String :=
  String.mk (replaceHyphens (stripDensity file_name.data))

/-- `true` iff the regex `@[0-9]+x` matches somewhere in the list. -/
def containsMatch : List Char → Bool
  | [] => false
  | c :: rest =>
    if c = '@' then
      match chompDigitsX rest with
      | some _ => true
      | none => containsMatch rest
    else containsMatch rest

/-! ### Proportional resize calculator -/

/-- Embeds `get_width_height(self, width, height, target_size)`:

```
if width > height:
    new_width = target_size
    wpercent = (target_size / float(width))
    new_height = int((float(height) * float(wpercent)))
else:
    new_height = target_size
    wpercent = (target_size / float(height))
    new_width = int((float(width) * float(wpercent)))
return (new_width, new_height)
```

Float arithmetic is idealised as exact arithmetic over `ℚ`; `int` on the
non-negative product is truncation toward zero, i.e. `Int.toNat ∘ Int.floor`. -/
def get_width_height (width height target_size : ℕ) : ℕ × ℕ :=
  if width > height then
    let new_width := target_size
    let wpercent : ℚ := (target_size : ℚ) / (width : ℚ)
    let new_height := (⌊(height : ℚ) * wpercent⌋).toNat
    (new_width, new_height)
  else
    let new_height := target_size
    let wpercent : ℚ := (target_size : ℚ) / (height : ℚ)
    let new_width := (⌊(width : ℚ) * wpercent⌋).toNat
    (new_width, new_height)

/-! ### Filesystem model

`os.makedirs` either creates the directory, or raises an `OSError` because
the directory already exists, or raises some other `OSError` (permissions,
invalid path, ...).  The latter is modelled by an arbitrary failure oracle
carried in the state, so theorems quantifying over `FS` cover every pattern
of non-"already exists" failures. -/

/-- The two relevant classes of `OSError` raised by `os.makedirs`. -/
inductive OSError where
  | fileExists
  | otherError
deriving DecidableEq

/-- Filesystem state: the set of existing directories (as joined path
component lists) and the failure oracle (`true` = creating this directory
raises a non-"already exists" `OSError`). -/
structure FS where
  dirs : List (List String)
  oracle : List String → Bool

/-- Embeds `os.makedirs(path, 0755)`: error if the directory exists, error if
the oracle says creation fails, otherwise add the directory. -/
def makedirs (fs : FS) (path : List String) : Except OSError FS :=
  if path ∈ fs.dirs then Except.error OSError.fileExists
  else if fs.oracle path then Except.error OSError.otherError
  else Except.ok { fs with dirs := path :: fs.dirs }

/-- Embeds `try: os.makedirs(path, 0755) except OSError: pass`. -/
def tryMakedirs (fs : FS) (path : List String) : FS :=
  match makedirs fs path with
  | Except.ok fs' => fs'
  | Except.error _ => fs

/-- Path of one density bucket's drawable directory:
`os.path.join(output_folder, DRAWABLE_FOLDER_PATH % resolution_type)`. -/
def drawable_dir (output_folder resolution_type : String) : List String :=
  [output_folder, DRAWABLE_FOLDER_PATH resolution_type]

/-- Embeds `create_directories(self)`: for each resolution type, attempt to
create its drawable directory, swallowing any `OSError`. -/
def create_directories (output_folder : String) (fs : FS) : FS :=
  (RESOLUTION_TYPES.map (drawable_dir output_folder)).foldl tryMakedirs fs

/-- Path of the playstore directory:
`os.path.join(output_folder, PLAYSTORE_FOLDER_PATH)`. -/
def playstore_dir (output_folder : String) : List String :=
  [output_folder, PLAYSTORE_FOLDER_PATH]

/-- Embeds `create_playstore_directory(self)`: attempt to create the
playstore directory, swallowing any `OSError`. -/
def create_playstore_directory (output_folder : String) (fs : FS) : FS :=
  tryMakedirs fs (playstore_dir output_folder)

/-! ### The resize orchestrator -/

/-- Decode failure raised by `Image.open` (missing or undecodable file). -/
inductive DecodeError where
  | cannotIdentifyImage
deriving DecidableEq

/-- One written output file: its path components and pixel dimensions. -/
structure SavedFile where
  path : List String
  width : ℕ
  height : ℕ
deriving DecidableEq

/-- Embeds `os.path.basename`: the part of the path after the last `/`. -/
def basename (file_path : String) : String :=
  String.mk (file_path.data.foldl (fun acc c => if c = '/' then [] else acc ++ [c]) [])

/-- The target size computed in the per-bucket loop of `resize`:

```
target_size = RESOLUTION_SIZES.get(resolution_type)
if desired_size_mdpi > 0:
    target_size = int(desired_size_mdpi * RELATIVE_SIZES.get(resolution_type))
```
-/
def target_for (desired_size_mdpi : ℕ) (resolution_type : String) : ℕ :=
  if desired_size_mdpi > 0 then
    (⌊(desired_size_mdpi : ℚ) * RELATIVE_SIZES resolution_type⌋).toNat
  else RESOLUTION_SIZES resolution_type

/-- Embeds `resize(self, file_path, desired_size_mdpi=0, with_playstore=False)`.
The image decoded from `file_path` is passed explicitly: `some (width, height)`
for a successfully decoded image, `none` when `Image.open` raises.  Returns
the filesystem state after the call together with either the decode error or
the list of written files in order.  Note the source reassigns
`desired_size_mdpi = width if width > height else height`, discarding the
caller's argument, before the loop. -/
def resize (output_folder : String) (fs : FS) (file_path : String)
    (img : Option (ℕ × ℕ)) (desired_size_mdpi : ℕ) (with_playstore : Bool) :
    FS × Except DecodeError (List SavedFile) :=
  let fs := create_directories output_folder fs
  let file_name := basename file_path
  match img with
  | none => (fs, Except.error DecodeError.cannotIdentifyImage)
  | some (width, height) =>
    let desired_size_mdpi := if width > height then width else height
    let files := RESOLUTION_TYPES.map fun resolution_type =>
      let target_size := target_for desired_size_mdpi resolution_type
      let wh := get_width_height width height target_size
      { path := [output_folder, DRAWABLE_FOLDER_PATH resolution_type,
                 normalize_file_name file_name],
        width := wh.1, height := wh.2 : SavedFile }
    if with_playstore then
      let fs := create_playstore_directory output_folder fs
      let wh := get_width_height width height PLAYSTORE_SIZE
      (fs, Except.ok (files ++
        [{ path := [output_folder, PLAYSTORE_FOLDER_PATH, normalize_file_name file_name],
           width := wh.1, height := wh.2 : SavedFile }]))
    else
      (fs, Except.ok files)

/-! ### Arithmetic characterisation of the rational computations -/

/-- Truncating `a * (t / b)` computed exactly over `ℚ` is natural division:
`a * t / b`.  (Both sides are 0 when `b = 0`.) -/
theorem toNat_floor_scale (a t b : ℕ) :
    (⌊(a : ℚ) * ((t : ℚ) / (b : ℚ))⌋).toNat = a * t / b := by
  have h1 : (a : ℚ) * ((t : ℚ) / (b : ℚ)) = ((a * t : ℕ) : ℚ) / ((b : ℕ) : ℚ) := by
    push_cast; ring
  rw [h1, Int.floor_toNat, Nat.floor_div_eq_div]

/-- `get_width_height` in terms of natural division: the longer branch keeps
the target size, the other dimension is the exact scale truncated. -/
theorem get_width_height_eq (w h t : ℕ) :
    get_width_height w h t = if w > h then (t, h * t / w) else (w * t / h, t) := by
  unfold get_width_height
  by_cases hc : w > h <;> simp [hc, toNat_floor_scale]

/-- The scaled shorter dimension never exceeds the target size. -/
theorem scaled_le_target {a b : ℕ} (t : ℕ) (hb : 0 < b) (hab : a ≤ b) :
    a * t / b ≤ t := by
  calc a * t / b ≤ b * t / b := Nat.div_le_div_right (Nat.mul_le_mul_right t hab)
  _ = t := Nat.mul_div_cancel_left t hb

/-- The scaled strictly-shorter dimension is strictly below the target size
(for a positive target). -/
theorem scaled_lt_target {a b : ℕ} {t : ℕ} (ht : 0 < t) (hab : a < b) :
    a * t / b < t := by
  have hb : 0 < b := Nat.lt_of_le_of_lt (Nat.zero_le a) hab
  rw [Nat.div_lt_iff_lt_mul hb]
  have h1 : a * t < b * t := Nat.mul_lt_mul_of_lt_of_le hab (le_refl t) ht
  rw [Nat.mul_comm t b]
  exact h1

/-- The maximum of the returned pair is always the target size (for positive
source dimensions). -/
theorem get_width_height_max (w h t : ℕ) (hw : 0 < w) (hh : 0 < h) :
    max (get_width_height w h t).1 (get_width_height w h t).2 = t := by
  rw [get_width_height_eq]
  by_cases hc : w > h
  · simp only [if_pos hc]
    exact max_eq_left (scaled_le_target t hw (le_of_lt hc))
  · simp only [if_neg hc]
    exact max_eq_right (scaled_le_target t hh (Nat.le_of_not_lt hc))

/-- The reassignment `desired_size_mdpi = width if width > height else height`
computes the larger of the two source dimensions. -/
theorem longest_side_eq_max (w h : ℕ) : (if w > h then w else h) = max w h := by
  split <;> omega

/-! ### Lemmas about the filesystem model -/

theorem tryMakedirs_oracle (fs : FS) (p : List String) :
    (tryMakedirs fs p).oracle = fs.oracle := by
  unfold tryMakedirs makedirs
  by_cases h1 : p ∈ fs.dirs
  · simp [h1]
  · by_cases h2 : fs.oracle p <;> simp [h1, h2]

theorem tryMakedirs_dirs_mono (fs : FS) (p q : List String) (h : q ∈ fs.dirs) :
    q ∈ (tryMakedirs fs p).dirs := by
  unfold tryMakedirs makedirs
  by_cases h1 : p ∈ fs.dirs
  · simpa [h1] using h
  · by_cases h2 : fs.oracle p
    · simpa [h1, h2] using h
    · simp only [h1, h2, if_neg, if_false, Bool.false_eq_true]
      exact List.mem_cons_of_mem p h

theorem tryMakedirs_covers (fs : FS) (p : List String) :
    p ∈ (tryMakedirs fs p).dirs ∨ fs.oracle p = true := by
  unfold tryMakedirs makedirs
  by_cases h1 : p ∈ fs.dirs
  · simp [h1]
  · by_cases h2 : fs.oracle p
    · exact Or.inr h2
    · simp [h1, h2]

theorem tryMakedirs_noop (fs : FS) (p : List String)
    (h : p ∈ fs.dirs ∨ fs.oracle p = true) : tryMakedirs fs p = fs := by
  unfold tryMakedirs makedirs
  rcases h with h | h
  · simp [h]
  · by_cases h1 : p ∈ fs.dirs <;> simp [h1, h]

theorem foldl_tryMakedirs_oracle :
    ∀ (ps : List (List String)) (fs : FS),
      (List.foldl tryMakedirs fs ps).oracle = fs.oracle := by
  intro ps
  induction ps with
  | nil => intro fs; rfl
  | cons p ps ih =>
    intro fs
    rw [List.foldl_cons, ih, tryMakedirs_oracle]

theorem foldl_tryMakedirs_mono :
    ∀ (ps : List (List String)) (fs : FS) (q : List String),
      q ∈ fs.dirs → q ∈ (List.foldl tryMakedirs fs ps).dirs := by
  intro ps
  induction ps with
  | nil => intro fs q h; exact h
  | cons p ps ih =>
    intro fs q h
    rw [List.foldl_cons]
    exact ih _ q (tryMakedirs_dirs_mono fs p q h)

theorem foldl_tryMakedirs_covers :
    ∀ (ps : List (List String)) (fs : FS) (p : List String),
      p ∈ ps → p ∈ (List.foldl tryMakedirs fs ps).dirs ∨ fs.oracle p = true := by
  intro ps
  induction ps with
  | nil => intro fs p h; exact absurd h (List.not_mem_nil p)
  | cons q ps ih =>
    intro fs p h
    rw [List.foldl_cons]
    rcases List.mem_cons.mp h with rfl | hps
    · rcases tryMakedirs_covers fs p with hmem | hora
      · exact Or.inl (foldl_tryMakedirs_mono ps _ p hmem)
      · exact Or.inr hora
    · rcases ih (tryMakedirs fs q) p hps with hmem | hora
      · exact Or.inl hmem
      · rw [tryMakedirs_oracle] at hora
        exact Or.inr hora

theorem foldl_tryMakedirs_noop :
    ∀ (ps : List (List String)) (fs : FS),
      (∀ p ∈ ps, p ∈ fs.dirs ∨ fs.oracle p = true) →
      List.foldl tryMakedirs fs ps = fs := by
  intro ps
  induction ps with
  | nil => intro fs _; rfl
  | cons q ps ih =>
    intro fs h
    rw [List.foldl_cons, tryMakedirs_noop fs q (h q (List.mem_cons_self q ps))]
    exact ih fs fun p hp => h p (List.mem_cons_of_mem q hp)

theorem foldl_tryMakedirs_idem (ps : List (List String)) (fs : FS) :
    List.foldl tryMakedirs (List.foldl tryMakedirs fs ps) ps
      = List.foldl tryMakedirs fs ps := by
  apply foldl_tryMakedirs_noop
  intro p hp
  rcases foldl_tryMakedirs_covers ps fs p hp with h | h
  · exact Or.inl h
  · right
    rw [foldl_tryMakedirs_oracle]
    exact h

/-! ### Lemmas about filename normalisation -/

theorem stripDensityFuel_of_no_match :
    ∀ (fuel : ℕ) (l : List Char), containsMatch l = false →
      stripDensityFuel fuel l = l := by
  intro fuel
  induction fuel with
  | zero => intro l _; rfl
  | succ n ih =>
    intro l h
    cases l with
    | nil => rfl
    | cons c rest =>
      by_cases hc : c = '@'
      · subst hc
        cases hm : chompDigitsX rest with
        | some tail =>
          rw [containsMatch, if_pos rfl, hm] at h
          exact absurd h (by simp)
        | none =>
          rw [containsMatch, if_pos rfl, hm] at h
          rw [stripDensityFuel, if_pos rfl, hm, ih rest h]
      · rw [containsMatch, if_neg hc] at h
        rw [stripDensityFuel, if_neg hc, ih rest h]

theorem replaceHyphens_idem :
    ∀ l : List Char, replaceHyphens (replaceHyphens l) = replaceHyphens l := by
  intro l
  induction l with
  | nil => rfl
  | cons c rest ih =>
    have hstep : ∀ (d : Char) (l' : List Char),
        replaceHyphens (d :: l') = (if d = '-' then '_' else d) :: replaceHyphens l' :=
      fun d l' => rfl
    rw [hstep, hstep, ih]
    by_cases hc : c = '-' <;> simp [hc]

/-! ### Claim theorems -/

/-- C1: for all positive `width`, `height` and `targetSize`,
`get_width_height` returns a pair whose maximum is exactly `targetSize`, the
longer source dimension maps exactly to `targetSize`, and the shorter
dimension is the shorter source dimension scaled by `targetSize` over the
longer dimension, truncated toward zero (natural division). -/
theorem get_width_height_correct (w h t : ℕ) (hw : 0 < w) (hh : 0 < h) (ht : 0 < t) :
    max (get_width_height w h t).1 (get_width_height w h t).2 = t
    ∧ (h ≤ w → (get_width_height w h t).1 = t)
    ∧ (w ≤ h → (get_width_height w h t).2 = t)
    ∧ (h ≤ w → (get_width_height w h t).2 = h * t / w)
    ∧ (w ≤ h → (get_width_height w h t).1 = w * t / h) := by
  rw [get_width_height_eq]
  by_cases hc : w > h
  · simp only [if_pos hc]
    refine ⟨?_, ?_, ?_, ?_, ?_⟩
    · exact max_eq_left (scaled_le_target t hw (le_of_lt hc))
    · intro _; trivial
    · intro hwh; exact absurd hwh (Nat.not_le_of_lt hc)
    · intro _; trivial
    · intro hwh; exact absurd hwh (Nat.not_le_of_lt hc)
  · have hwh : w ≤ h := Nat.le_of_not_lt hc
    simp only [if_neg hc]
    refine ⟨?_, ?_, ?_, ?_, ?_⟩
    · exact max_eq_right (scaled_le_target t hh hwh)
    · intro hhw
      have hweq : w = h := Nat.le_antisymm hwh hhw
      subst hweq
      exact Nat.mul_div_cancel_left t hw
    · intro _; trivial
    · intro hhw
      have hweq : w = h := Nat.le_antisymm hwh hhw
      subst hweq
      exact (Nat.mul_div_cancel_left t hw).symm
    · intro _; trivial

/-- Witness for C1 at the concrete landscape input 4×2 with target 8. -/
theorem get_width_height_correct_witness :
    max (get_width_height 4 2 8).1 (get_width_height 4 2 8).2 = 8
    ∧ (2 ≤ 4 → (get_width_height 4 2 8).1 = 8)
    ∧ (4 ≤ 2 → (get_width_height 4 2 8).2 = 8)
    ∧ (2 ≤ 4 → (get_width_height 4 2 8).2 = 2 * 8 / 4)
    ∧ (4 ≤ 2 → (get_width_height 4 2 8).1 = 4 * 8 / 2) :=
  get_width_height_correct 4 2 8 (by decide) (by decide) (by decide)

/-- C4: when width equals height, `get_width_height` takes the branch that
treats height as the longer side and returns exactly
`(target_size, target_size)`. -/
theorem get_width_height_square (w t : ℕ) (hw : 0 < w) (ht : 0 < t) :
    get_width_height w w t = (t, t) := by
  rw [get_width_height_eq]
  simp only [gt_iff_lt, lt_irrefl, if_false]
  rw [Nat.mul_div_cancel_left t hw]

/-- Witness for C4 at the concrete square input 5×5 with target 7. -/
theorem get_width_height_square_witness : get_width_height 5 5 7 = (7, 7) :=
  get_width_height_square 5 7 (by decide) (by decide)

/-- C9: `get_width_height` preserves orientation for positive inputs —
the result is portrait, landscape or square exactly when the source is. -/
theorem get_width_height_orientation (w h t : ℕ) (hw : 0 < w) (hh : 0 < h) (ht : 0 < t) :
    ((get_width_height w h t).1 < (get_width_height w h t).2 ↔ w < h)
    ∧ ((get_width_height w h t).2 < (get_width_height w h t).1 ↔ h < w)
    ∧ ((get_width_height w h t).1 = (get_width_height w h t).2 ↔ w = h) := by
  rw [get_width_height_eq]
  rcases Nat.lt_trichotomy w h with hlt | heq | hgt
  · have hc : ¬ w > h := Nat.lt_asymm hlt
    simp only [if_neg hc]
    have hs : w * t / h < t := scaled_lt_target ht hlt
    exact ⟨iff_of_true hs hlt,
           iff_of_false (Nat.lt_asymm hs) (Nat.lt_asymm hlt),
           iff_of_false (Nat.ne_of_lt hs) (Nat.ne_of_lt hlt)⟩
  · subst heq
    have hc : ¬ w > w := Nat.lt_irrefl w
    simp only [if_neg hc]
    rw [Nat.mul_div_cancel_left t hw]
    refine ⟨?_, ?_, ?_⟩ <;> simp
  · simp only [if_pos hgt]
    have hs : h * t / w < t := scaled_lt_target ht hgt
    exact ⟨iff_of_false (Nat.lt_asymm hs) (Nat.lt_asymm hgt),
           iff_of_true hs hgt,
           iff_of_false (Nat.ne_of_gt hs) (Nat.ne_of_gt hgt)⟩

/-- Witness for C9 at the concrete portrait input 2×3 with target 6. -/
theorem get_width_height_orientation_witness :
    ((get_width_height 2 3 6).1 < (get_width_height 2 3 6).2 ↔ 2 < 3)
    ∧ ((get_width_height 2 3 6).2 < (get_width_height 2 3 6).1 ↔ 3 < 2)
    ∧ ((get_width_height 2 3 6).1 = (get_width_height 2 3 6).2 ↔ 2 = 3) :=
  get_width_height_orientation 2 3 6 (by decide) (by decide) (by decide)

/-- C2: `resize` is independent of the caller-supplied `desired_size_mdpi`
argument — any two calls differing only in that argument produce identical
filesystem states and identical output files, because the source reassigns
the variable to the larger source dimension before it is ever read. -/
theorem resize_ignores_desired_size (output_folder : String) (fs : FS)
    (file_path : String) (img : Option (ℕ × ℕ)) (d₁ d₂ : ℕ) (with_playstore : Bool) :
    resize output_folder fs file_path img d₁ with_playstore
      = resize output_folder fs file_path img d₂ with_playstore := rfl

/-- C3: for every density bucket the target size passed to
`get_width_height` is the floor of the effective baseline (the larger source
dimension) times the bucket's relative scale factor, falling back to the
bucket's canonical size only when the baseline is not positive; the scale
factors are 0.75, 1, 1.5, 2, 3, 4, and for a 100×200 source the xxxhdpi
variant has height 800 (the max dimension) and width 400. -/
theorem resize_target_sizes (w h : ℕ) (rt : String) (hrt : rt ∈ RESOLUTION_TYPES) :
    target_for (if w > h then w else h) rt
      = (if 0 < max w h then (⌊((max w h : ℕ) : ℚ) * RELATIVE_SIZES rt⌋).toNat
         else RESOLUTION_SIZES rt)
    ∧ RELATIVE_SIZES "ldpi" = 3 / 4 ∧ RELATIVE_SIZES "mdpi" = 1
    ∧ RELATIVE_SIZES "hdpi" = 3 / 2 ∧ RELATIVE_SIZES "xhdpi" = 2
    ∧ RELATIVE_SIZES "xxhdpi" = 3 ∧ RELATIVE_SIZES "xxxhdpi" = 4
    ∧ target_for (if 100 > 200 then 100 else 200) "xxxhdpi" = 800
    ∧ get_width_height 100 200 800 = (400, 800) := by
  refine ⟨?_, rfl, rfl, rfl, rfl, rfl, rfl, ?_, ?_⟩
  · rw [longest_side_eq_max]
    rfl
  · show target_for 200 "xxxhdpi" = 800
    unfold target_for
    rw [if_pos (by norm_num)]
    have h4 : RELATIVE_SIZES "xxxhdpi" = 4 := rfl
    rw [h4]
    have h200 : ((200 : ℕ) : ℚ) * 4 = ((800 : ℕ) : ℚ) := by norm_num
    rw [h200, Int.floor_natCast]
    rfl
  · rw [get_width_height_eq]
    decide

/-- Witness for C3 at the 100×200 source and the xxxhdpi bucket. -/
theorem resize_target_sizes_witness :
    (target_for (if 100 > 200 then 100 else 200) "xxxhdpi"
      = (if 0 < max 100 200 then (⌊((max 100 200 : ℕ) : ℚ) * RELATIVE_SIZES "xxxhdpi"⌋).toNat
         else RESOLUTION_SIZES "xxxhdpi")
    ∧ RELATIVE_SIZES "ldpi" = 3 / 4 ∧ RELATIVE_SIZES "mdpi" = 1
    ∧ RELATIVE_SIZES "hdpi" = 3 / 2 ∧ RELATIVE_SIZES "xhdpi" = 2
    ∧ RELATIVE_SIZES "xxhdpi" = 3 ∧ RELATIVE_SIZES "xxxhdpi" = 4
    ∧ target_for (if 100 > 200 then 100 else 200) "xxxhdpi" = 800
    ∧ get_width_height 100 200 800 = (400, 800)) :=
  resize_target_sizes 100 200 "xxxhdpi" (by decide)

/-- C5 counterexample: on an input containing two density-multiplier
substrings, `normalize_file_name` removes both, not exactly one — the result
`"a"` differs from both possible exactly-one-removal results. -/
theorem normalize_file_name_not_single_removal :
    normalize_file_name "a@2x@3x" = "a"
    ∧ normalize_file_name "a@2x@3x" ≠ "a@3x"
    ∧ normalize_file_name "a@2x@3x" ≠ "a@2x" := by
  refine ⟨by decide, by decide, by decide⟩

/-- C5 amended: `normalize_file_name` removes every leftmost non-overlapping
`@<digits>x` substring in a single left-to-right pass (all of them when
several are present, and a removal may splice surrounding text into a new
occurrence which is then not removed), and replaces every hyphen with an
underscore; in particular `normalize_file_name "icon@2x-test.png" =
"icon_test.png"`. -/
theorem normalize_file_name_spec :
    normalize_file_name "icon@2x-test.png" = "icon_test.png"
    ∧ normalize_file_name "a@2x@3x" = "a"
    ∧ normalize_file_name "@2@3xx" = "@2x"
    ∧ ∀ s : String, (normalize_file_name s).data.count '-' = 0 := by
  refine ⟨by decide, by decide, by decide, ?_⟩
  intro s
  rw [List.count_eq_zero]
  intro hmem
  have hmem' : '-' ∈ replaceHyphens (stripDensity s.data) := hmem
  unfold replaceHyphens at hmem'
  rcases List.mem_map.mp hmem' with ⟨c, _, hc⟩
  by_cases h : c = '-' <;> simp [h] at hc

/-- C6 counterexample: `normalize_file_name` is not idempotent — removing
`@3x` from `"@2@3xx"` splices the remaining text into the new occurrence
`"@2x"`, which a second application removes. -/
theorem normalize_file_name_not_idempotent :
    normalize_file_name (normalize_file_name "@2@3xx")
      ≠ normalize_file_name "@2@3xx" := by decide

/-- C6 amended: `normalize_file_name` is idempotent on every string whose
normalisation contains no further `@<digits>x` occurrence (the removal pass
can splice text into a new occurrence, and only then does a second
application differ). -/
theorem normalize_file_name_idem_of_no_match (s : String)
    (h : containsMatch (normalize_file_name s).data = false) :
    normalize_file_name (normalize_file_name s) = normalize_file_name s := by
  have h' : containsMatch (replaceHyphens (stripDensity s.data)) = false := h
  show String.mk (replaceHyphens (stripDensity (replaceHyphens (stripDensity s.data))))
      = String.mk (replaceHyphens (stripDensity s.data))
  rw [show stripDensity (replaceHyphens (stripDensity s.data))
        = replaceHyphens (stripDensity s.data) from
      stripDensityFuel_of_no_match _ _ h']
  rw [replaceHyphens_idem]

/-- Witness for C6's amended claim at an already-normalised name. -/
theorem normalize_file_name_idem_witness :
    containsMatch (normalize_file_name "icon@2x-test.png").data = false
    ∧ normalize_file_name (normalize_file_name "icon@2x-test.png")
      = normalize_file_name "icon@2x-test.png" :=
  ⟨by decide, normalize_file_name_idem_of_no_match "icon@2x-test.png" (by decide)⟩

/-- C7: with the storefront flag set, `resize` writes exactly one additional
file, at `<output>/res/playstore/<normalized name>`, whose dimensions are
`get_width_height` of the original source dimensions at the fixed target
`PLAYSTORE_SIZE = 512`; its longer side is exactly 512. -/
theorem resize_playstore_spec (output_folder : String) (fs : FS) (file_path : String)
    (w h d : ℕ) (hw : 0 < w) (hh : 0 < h) :
    (resize output_folder fs file_path (some (w, h)) d true).2
      = Except.map (fun files => files ++
          [{ path := [output_folder, PLAYSTORE_FOLDER_PATH,
                      normalize_file_name (basename file_path)],
             width := (get_width_height w h PLAYSTORE_SIZE).1,
             height := (get_width_height w h PLAYSTORE_SIZE).2 : SavedFile }])
          (resize output_folder fs file_path (some (w, h)) d false).2
    ∧ max (get_width_height w h PLAYSTORE_SIZE).1
        (get_width_height w h PLAYSTORE_SIZE).2 = 512 := by
  constructor
  · rfl
  · exact get_width_height_max w h PLAYSTORE_SIZE hw hh

/-- Witness for C7 at a concrete 10×10 image on an empty filesystem. -/
theorem resize_playstore_witness :
    (resize "out" ⟨[], fun _ => false⟩ "icon.png" (some (10, 10)) 0 true).2
      = Except.map (fun files => files ++
          [{ path := ["out", PLAYSTORE_FOLDER_PATH,
                      normalize_file_name (basename "icon.png")],
             width := (get_width_height 10 10 PLAYSTORE_SIZE).1,
             height := (get_width_height 10 10 PLAYSTORE_SIZE).2 : SavedFile }])
          (resize "out" ⟨[], fun _ => false⟩ "icon.png" (some (10, 10)) 0 false).2
    ∧ max (get_width_height 10 10 PLAYSTORE_SIZE).1
        (get_width_height 10 10 PLAYSTORE_SIZE).2 = 512 :=
  resize_playstore_spec "out" ⟨[], fun _ => false⟩ "icon.png" 10 10 0
    (by decide) (by decide)

/-- C8: `create_directories` and `create_playstore_directory` are total on
the filesystem model (every `OSError`, "already exists" or otherwise, is
swallowed) and idempotent: running them a second time against the same
output directory changes nothing, so a second `resize` run does not fail at
the directory-creation step. -/
theorem create_directories_idem (output_folder : String) (fs : FS) :
    create_directories output_folder (create_directories output_folder fs)
      = create_directories output_folder fs
    ∧ create_playstore_directory output_folder (create_playstore_directory output_folder fs)
      = create_playstore_directory output_folder fs := by
  constructor
  · exact foldl_tryMakedirs_idem _ fs
  · unfold create_playstore_directory
    apply tryMakedirs_noop
    rcases tryMakedirs_covers fs (playstore_dir output_folder) with h | h
    · exact Or.inl h
    · right
      rw [tryMakedirs_oracle]
      exact h

/-- C10: `resize` is not atomic with respect to decode failure — when the
image cannot be decoded it raises the decode error, but the directory
creation has already happened: the resulting state is exactly
`create_directories` of the initial state, and (absent other `OSError`s) all
six drawable directories exist in it. -/
theorem resize_decode_failure_spec (output_folder : String) (fs : FS)
    (file_path : String) (d : ℕ) (with_playstore : Bool)
    (hor : ∀ q, fs.oracle q = false) :
    (resize output_folder fs file_path none d with_playstore).2
      = Except.error DecodeError.cannotIdentifyImage
    ∧ (resize output_folder fs file_path none d with_playstore).1
      = create_directories output_folder fs
    ∧ ∀ rt ∈ RESOLUTION_TYPES,
        drawable_dir output_folder rt
          ∈ (resize output_folder fs file_path none d with_playstore).1.dirs := by
  refine ⟨rfl, rfl, ?_⟩
  intro rt hrt
  show drawable_dir output_folder rt ∈ (create_directories output_folder fs).dirs
  unfold create_directories
  rcases foldl_tryMakedirs_covers (RESOLUTION_TYPES.map (drawable_dir output_folder)) fs
      (drawable_dir output_folder rt)
      (List.mem_map_of_mem (drawable_dir output_folder) hrt) with hmem | hora
  · exact hmem
  · rw [hor] at hora
    exact absurd hora (by simp)

/-- Witness for C10 on an empty filesystem with no induced `OSError`s. -/
theorem resize_decode_failure_witness :
    (resize "out" ⟨[], fun _ => false⟩ "icon.png" none 0 false).2
      = Except.error DecodeError.cannotIdentifyImage
    ∧ (resize "out" ⟨[], fun _ => false⟩ "icon.png" none 0 false).1
      = create_directories "out" ⟨[], fun _ => false⟩
    ∧ ∀ rt ∈ RESOLUTION_TYPES,
        drawable_dir "out" rt
          ∈ (resize "out" ⟨[], fun _ => false⟩ "icon.png" none 0 false).1.dirs :=
  resize_decode_failure_spec "out" ⟨[], fun _ => false⟩ "icon.png" 0 false
    (fun _ => rfl)

end IconResizer
